import Mathlib

/-!
Shallow embedding of the client-side data store of the
GA-Script-Chartered-App repository (src/src/contexts/DataContext.tsx),
together with theorems settling the frozen claims about it.

Conventions of the embedding:
* JavaScript `Date` values (timestamps, due dates) are modelled as `Nat`
  (epoch milliseconds); `Date.now()` becomes an explicit `now : Nat`
  parameter threaded through every mutation that stamps ids or dates.
* `Date.now().toString()` becomes `toString now`.
* Optional record fields (`field?: T`) become `Option T`; a JavaScript
  partial patch (`Partial<Task>`) becomes a record of `Option` fields,
  `none` meaning the key is absent from the patch.
* The JavaScript truthiness idiom `a || b` on strings (empty string is
  falsy) is `jsOrStr`; on arrays (any array, even empty, is truthy) it is
  plain `Option.getD`.
* React `setX(prev => ...)` functional updates accumulate within one
  handler invocation, while the plain closure variables (`tasks`,
  `notifications`, `taskTypes`, `clients`, `users`) stay fixed at their
  render-time value for the duration of the handler; the definitions
  below mirror this by threading the accumulated state while reading
  lookup collections from the handler's initial state where the source
  reads the closure variable.
-/

namespace ChartApp

/-- JavaScript `a || b` for an optional string: an absent or empty string
falls back to the default. -/
def jsOrStr (a : Option String) (b : String) : String :=
  match a with
  | some s => if s = "" then b else s
  | none => b

/-- Boolean infix test on character lists: does `n` occur contiguously
inside `h`? -/
def listInfix (n : List Char) : List Char → Bool
  | [] => n.isEmpty
  | c :: cs => n.isPrefixOf (c :: cs) || listInfix n cs

/-- JavaScript `String.prototype.includes`: substring containment. -/
def containsSubstr (needle hay : String) : Bool :=
  listInfix needle.data hay.data

/-- JavaScript `str.replace('-', ' ')`: replaces only the first
occurrence of the dash. -/
def replaceFirstDash : List Char → List Char
  | [] => []
  | c :: cs => if c = '-' then ' ' :: cs else c :: replaceFirstDash cs

/-- `status.replace('-', ' ')` as used in the activity-log text. -/
def replaceDash (s : String) : String :=
  (replaceFirstDash s.data).asString

/-- `Date.prototype.toLocaleDateString` rendered over the numeric model
of dates. The exact locale text is environment-dependent; no claim
depends on it, only on which notifications carry which titles,
recipients and priorities. -/
def localeDateString (d : Nat) : String :=
  toString d

/-- One entry of a milestone list owned by a TaskType
(src/src/contexts/DataContext.tsx milestone objects). -/
structure Milestone where
  id : String
  name : String
  description : String
  estimatedHours : Nat
  order : Nat
deriving DecidableEq

/-- One entry of `task.milestoneProgress`. -/
structure MilestoneProgress where
  milestoneId : String
  completed : Bool
  completedAt : Option Nat
  completedById : Option String
deriving DecidableEq

/-- One entry of `task.activityLog`. -/
structure ActivityEntry where
  id : String
  userId : String
  userName : String
  action : String
  timestamp : Nat
deriving DecidableEq

/-- `User` as used by DataContext.tsx. -/
structure User where
  id : String
  name : String
  email : String
  role : String
  department : Option String
  status : Option String
  createdAt : Nat
  password : Option String
deriving DecidableEq

/-- `Client` as used by DataContext.tsx. -/
structure Client where
  id : String
  name : String
  email : String
  phone : String
  address : String
  contactPerson : Option String
  isActive : Bool
  createdAt : Nat
deriving DecidableEq

/-- `TaskType` as used by DataContext.tsx. -/
structure TaskType where
  id : String
  name : String
  description : String
  category : String
  defaultPriority : Option String
  estimatedHours : Nat
  isActive : Bool
  createdAt : Nat
  updatedAt : Option Nat
  milestones : List Milestone
deriving DecidableEq

/-- `Task` as used by DataContext.tsx (statuses and priorities are the
string literals of the source's union types). -/
structure Task where
  id : String
  taskNumber : String
  title : String
  description : String
  taskTypeId : String
  clientId : String
  assignedToId : String
  assignedById : String
  status : String
  priority : String
  dueDate : Nat
  estimatedHours : Nat
  actualHours : Option Nat
  createdAt : Nat
  updatedAt : Option Nat
  isRecurring : Bool
  recurringInterval : Option String
  assignedUsers : Option (List String)
  milestoneProgress : Option (List MilestoneProgress)
  activityLog : Option (List ActivityEntry)
  updatedById : Option String
deriving DecidableEq

/-- `ChatMessage` as used by DataContext.tsx. -/
structure ChatMessage where
  id : String
  taskId : String
  userId : String
  userName : String
  message : String
  timestamp : Nat
deriving DecidableEq

/-- `Notification` as constructed by DataContext.tsx (fields `type`,
`title`, `message`, `isRead`, `userId`, optional `taskId` and
`priority`, plus the stamped `id` and `timestamp`). -/
structure Notification where
  id : String
  type : String
  title : String
  message : String
  timestamp : Nat
  isRead : Bool
  userId : String
  taskId : Option String
  priority : Option String
deriving DecidableEq

/-- The collections held by the DataProvider. -/
structure State where
  users : List User
  clients : List Client
  taskTypes : List TaskType
  tasks : List Task
  chatMessages : List ChatMessage
  notifications : List Notification
deriving DecidableEq

/-- Input of `addNotification`: a Notification minus `id` and
`timestamp`. -/
structure NotificationData where
  type : String
  title : String
  message : String
  isRead : Bool
  userId : String
  taskId : Option String
  priority : Option String
deriving DecidableEq

/-- The Notification record `addNotification` builds: the input data
stamped with `id = Date.now().toString()` and `timestamp = new Date()`. -/
def mkNotification (now : Nat) (d : NotificationData) : Notification :=
  { id := toString now, type := d.type, title := d.title,
    message := d.message, timestamp := now, isRead := d.isRead,
    userId := d.userId, taskId := d.taskId, priority := d.priority }

/-- `addNotification`: stamps id and timestamp and appends to the
notification collection. -/
def addNotification (now : Nat) (s : State) (d : NotificationData) : State :=
  { s with notifications := s.notifications ++ [mkNotification now d] }

/-- The five task-notification event kinds of
`generateTaskNotification`. -/
inductive TaskEvent where
  | created
  | assigned
  | updated
  | completed
  | overdue
deriving DecidableEq

/-- The body of `generateTaskNotification` up to the final `if
(targetUserId)` guard: computes title, message, priority and recipient
for a task event. Lookup collections are those of the handler's initial
state `s0` (the React closure variables `taskTypes`, `clients`). -/
def taskNotificationData (s0 : State) (task : Task) (ev : TaskEvent) :
    NotificationData × String :=
  let taskTypeName :=
    jsOrStr ((s0.taskTypes.find? (fun tt => tt.id == task.taskTypeId)).map TaskType.name)
      "Unknown Task"
  let clientName :=
    jsOrStr ((s0.clients.find? (fun c => c.id == task.clientId)).map Client.name)
      "Unknown Client"
  let (title, message, priority, targetUserId) :=
    match ev with
    | .created =>
      ("New task created", taskTypeName ++ " created for " ++ clientName,
       task.priority, task.assignedToId)
    | .assigned =>
      ("Task assigned to you", taskTypeName ++ " for " ++ clientName,
       task.priority, task.assignedToId)
    | .updated =>
      ("Task updated", taskTypeName ++ " has been updated",
       task.priority, task.assignedToId)
    | .completed =>
      ("Task completed", taskTypeName ++ " has been marked as completed",
       task.priority, task.assignedById)
    | .overdue =>
      ("Task overdue",
       taskTypeName ++ " was due on " ++ localeDateString task.dueDate,
       "urgent", task.assignedToId)
  ({ type := "task", title := title, message := message, isRead := false,
     userId := targetUserId, taskId := some task.id,
     priority := some priority }, targetUserId)

/-- `generateTaskNotification`: emits the event's notification into the
accumulated state `acc` unless the target user id is falsy (empty). -/
def generateTaskNotification (now : Nat) (s0 : State) (acc : State)
    (task : Task) (ev : TaskEvent) : State :=
  let r := taskNotificationData s0 task ev
  if r.2 ≠ "" then addNotification now acc r.1 else acc

/-- The regular-expression test `/^T\d{3}$/.test(num)` (with the
preceding truthiness check on `num`, which an empty string fails
anyway). -/
def matchesT3 (s : String) : Bool :=
  match s.data with
  | ['T', a, b, c] => a.isDigit && b.isDigit && c.isDigit
  | _ => false

/-- `parseInt(num.substring(1))` for strings that passed the pattern
test: the numeric value of the digits after the leading character
(after the pattern filter the parse can never be NaN, so the source's
trailing `isNaN` filter drops nothing). -/
def parseSuffix (s : String) : Nat :=
  (s.data.drop 1).foldl (fun a c => a * 10 + (c.toNat - '0'.toNat)) 0

/-- `str.padStart(3, '0')`. -/
def padStart3 (s : String) : String :=
  if s.length ≥ 3 then s
  else (List.replicate (3 - s.length) '0').asString ++ s

/-- The rendering step of `generateTaskNumber`:
`` `T${nextNumber.toString().padStart(3, '0')}` ``. -/
def renderTaskNumber (n : Nat) : String :=
  "T" ++ padStart3 (toString n)

/-- `generateTaskNumber`: scan existing task numbers, keep those
matching `T` plus three digits, take the max numeric suffix plus one
(1 when none), and render as `T` plus the suffix zero-padded with
`padStart(3, '0')`. -/
def generateTaskNumber (tasks : List Task) : String :=
  let existingNumbers :=
    ((tasks.map Task.taskNumber).filter matchesT3).map parseSuffix
  let nextNumber :=
    if existingNumbers.isEmpty then 1 else existingNumbers.foldl max 0 + 1
  renderTaskNumber nextNumber

/-- Input of `addTask`: a Task minus `id`, `createdAt` and
`taskNumber`. -/
structure TaskInput where
  title : String
  description : String
  taskTypeId : String
  clientId : String
  assignedToId : String
  assignedById : String
  status : String
  priority : String
  dueDate : Nat
  estimatedHours : Nat
  actualHours : Option Nat
  updatedAt : Option Nat
  isRecurring : Bool
  recurringInterval : Option String
  assignedUsers : Option (List String)
  milestoneProgress : Option (List MilestoneProgress)
  activityLog : Option (List ActivityEntry)
  updatedById : Option String
deriving DecidableEq

/-- The new Task record built by `addTask`: fresh time-based id, the
next task number, a seeded one-entry activity log, and
`assignedUsers: taskData.assignedUsers || [taskData.assignedToId]`
(note a present-but-empty array is truthy in JavaScript and is kept). -/
def mkNewTask (now : Nat) (s : State) (d : TaskInput) : Task :=
  { id := toString now
    taskNumber := generateTaskNumber s.tasks
    title := d.title
    description := d.description
    taskTypeId := d.taskTypeId
    clientId := d.clientId
    assignedToId := d.assignedToId
    assignedById := d.assignedById
    status := d.status
    priority := d.priority
    dueDate := d.dueDate
    estimatedHours := d.estimatedHours
    actualHours := d.actualHours
    createdAt := now
    updatedAt := d.updatedAt
    isRecurring := d.isRecurring
    recurringInterval := d.recurringInterval
    assignedUsers := some (d.assignedUsers.getD [d.assignedToId])
    milestoneProgress := d.milestoneProgress
    activityLog := some
      [{ id := "1"
         userId := d.assignedById
         userName :=
           jsOrStr ((s.users.find? (fun u => u.id == d.assignedById)).map User.name)
             "Unknown"
         action := "Task created and assigned to " ++
           jsOrStr ((s.users.find? (fun u => u.id == d.assignedToId)).map User.name)
             "Unknown"
         timestamp := now }]
    updatedById := d.updatedById }

/-- `addTask`: append the new task, then emit the `created` and
`assigned` notifications for it. -/
def addTask (now : Nat) (s : State) (d : TaskInput) : State :=
  let newTask := mkNewTask now s d
  let s1 := { s with tasks := s.tasks ++ [newTask] }
  let s2 := generateTaskNotification now s s1 newTask .created
  generateTaskNotification now s s2 newTask .assigned

/-- `Partial<Task>`: every field optional, `none` meaning the key is
absent from the patch (so the spread leaves the original value). -/
structure PartialTask where
  id : Option String := none
  taskNumber : Option String := none
  title : Option String := none
  description : Option String := none
  taskTypeId : Option String := none
  clientId : Option String := none
  assignedToId : Option String := none
  assignedById : Option String := none
  status : Option String := none
  priority : Option String := none
  dueDate : Option Nat := none
  estimatedHours : Option Nat := none
  actualHours : Option (Option Nat) := none
  createdAt : Option Nat := none
  updatedAt : Option (Option Nat) := none
  isRecurring : Option Bool := none
  recurringInterval : Option (Option String) := none
  assignedUsers : Option (Option (List String)) := none
  milestoneProgress : Option (Option (List MilestoneProgress)) := none
  activityLog : Option (Option (List ActivityEntry)) := none
  updatedById : Option (Option String) := none
deriving DecidableEq

/-- The JavaScript spread `{ ...originalTask, ...updates }`: keys
present in the patch override the original shallowly. -/
def mergeTask (t : Task) (p : PartialTask) : Task :=
  { id := p.id.getD t.id
    taskNumber := p.taskNumber.getD t.taskNumber
    title := p.title.getD t.title
    description := p.description.getD t.description
    taskTypeId := p.taskTypeId.getD t.taskTypeId
    clientId := p.clientId.getD t.clientId
    assignedToId := p.assignedToId.getD t.assignedToId
    assignedById := p.assignedById.getD t.assignedById
    status := p.status.getD t.status
    priority := p.priority.getD t.priority
    dueDate := p.dueDate.getD t.dueDate
    estimatedHours := p.estimatedHours.getD t.estimatedHours
    actualHours := p.actualHours.getD t.actualHours
    createdAt := p.createdAt.getD t.createdAt
    updatedAt := p.updatedAt.getD t.updatedAt
    isRecurring := p.isRecurring.getD t.isRecurring
    recurringInterval := p.recurringInterval.getD t.recurringInterval
    assignedUsers := p.assignedUsers.getD t.assignedUsers
    milestoneProgress := p.milestoneProgress.getD t.milestoneProgress
    activityLog := p.activityLog.getD t.activityLog
    updatedById := p.updatedById.getD t.updatedById }

/-- The activity-log entry `updateTask` appends when the patched status
differs from the prior one. The acting user is
`updates.updatedById || originalTask.assignedById` (string
truthiness), and the user name is looked up with an `Unknown`
fallback. -/
def statusChangeEntry (now : Nat) (s : State) (orig : Task) (p : PartialTask)
    (newStatus : String) : ActivityEntry :=
  let actorId := jsOrStr (p.updatedById.getD none) orig.assignedById
  { id := toString now
    userId := actorId
    userName :=
      jsOrStr ((s.users.find? (fun u => u.id == actorId)).map User.name) "Unknown"
    action := "Status changed from " ++ replaceDash orig.status ++
      " to " ++ replaceDash newStatus
    timestamp := now }

/-- Case split of `updatedTaskOf` on the patched status. -/
def updatedTaskOfStatus (now : Nat) (s : State) (originalTask : Task)
    (p : PartialTask) : Option String → Task
  | some st =>
    if st ≠ originalTask.status then
      { mergeTask originalTask p with
        activityLog := some ((originalTask.activityLog.getD []) ++
          [statusChangeEntry now s originalTask p st]) }
    else mergeTask originalTask p
  | none => mergeTask originalTask p

/-- The `updatedTask` value `updateTask` builds: the shallow merge,
with one status-transition activity-log entry appended to the original
log when the patched status is present and differs from the prior
one. -/
def updatedTaskOf (now : Nat) (s : State) (originalTask : Task)
    (p : PartialTask) : Task :=
  updatedTaskOfStatus now s originalTask p p.status

/-- `updateTask`: silently no-ops when no task has the id; otherwise
shallow-merges the patch, appends a status-transition activity-log
entry when the patched status is present and differs, replaces the
task in the collection, and emits a `completed` notification when the
patched status is `completed`, an `updated` notification when any
other status is present in the patch. -/
def updateTask (now : Nat) (s : State) (id : String) (p : PartialTask) : State :=
  match s.tasks.find? (fun t => t.id == id) with
  | none => s
  | some originalTask =>
    let updatedTask := updatedTaskOf now s originalTask p
    let s1 := { s with tasks := s.tasks.map (fun t =>
      if t.id == id then updatedTask else t) }
    match p.status with
    | some st =>
      if st = "completed" then
        generateTaskNotification now s s1 updatedTask .completed
      else
        generateTaskNotification now s s1 updatedTask .updated
    | none => s1

/-- `deleteTask`: filter the task out; no existence check. -/
def deleteTask (s : State) (id : String) : State :=
  { s with tasks := s.tasks.filter (fun t => !(t.id == id)) }

/-- `markAllNotificationsAsRead`: set `isRead` on the notifications of
the given user. -/
def markAllNotificationsAsRead (s : State) (userId : String) : State :=
  { s with notifications := s.notifications.map (fun n =>
      if n.userId == userId then { n with isRead := true } else n) }

/-- `markNotificationAsRead`: set `isRead` on one notification by id. -/
def markNotificationAsRead (s : State) (id : String) : State :=
  { s with notifications := s.notifications.map (fun n =>
      if n.id == id then { n with isRead := true } else n) }

/-- The chat-notification body:
`` `${senderName}: ${msg.substring(0, 50)}${msg.length > 50 ? '...' : ''}` ``. -/
def truncatedBody (senderName messageText : String) : String :=
  senderName ++ ": " ++ (messageText.data.take 50).asString ++
    (if messageText.data.length > 50 then "..." else "")

/-- The notification data one task participant receives for a new chat
message: title names the task, body is the sender's name (with the
`Unknown User` fallback) and the first 50 characters of the message,
ellipsized when the message is longer than 50 characters. -/
def messageNotificationData (s0 : State) (task : Task) (message : ChatMessage)
    (userId : String) : NotificationData :=
  let senderName :=
    jsOrStr ((s0.users.find? (fun u => u.id == message.userId)).map User.name)
      "Unknown User"
  { type := "message"
    title := "New message in " ++ task.title
    message := truncatedBody senderName message.message
    isRead := false
    userId := userId
    taskId := some task.id
    priority := none }

/-- Does a notification look like the chat notification for recipient
`r` about `task` with the given body? -/
def chatNotifMatches (task : Task) (r body : String) (n : Notification) : Bool :=
  n.userId == r && n.title == ("New message in " ++ task.title) &&
    n.message == body && n.taskId == some task.id

/-- `generateMessageNotification`: look the task up; if absent, do
nothing. Otherwise notify the task's primary assignee and its assigner,
skipping the sender and empty ids. `s0` holds the React closure
collections (`tasks`, `users`); `acc` is the accumulated state
receiving the notifications. -/
def generateMessageNotification (now : Nat) (s0 : State) (acc : State)
    (message : ChatMessage) : State :=
  match s0.tasks.find? (fun t => t.id == message.taskId) with
  | none => acc
  | some task =>
    let usersToNotify :=
      ([task.assignedToId, task.assignedById]).filter (fun i => !(i == message.userId))
    usersToNotify.foldl (fun acc userId =>
      if userId ≠ "" then
        addNotification now acc (messageNotificationData s0 task message userId)
      else acc) acc

/-- `addChatMessage`: stamp the id, append the message, then generate
the message notifications. -/
def addChatMessage (now : Nat) (s : State) (d : ChatMessage) : State :=
  let newMessage := { d with id := toString now }
  let s1 := { s with chatMessages := s.chatMessages ++ [newMessage] }
  generateMessageNotification now s s1 newMessage

/-- `Partial<TaskType>` for `updateTaskType`. -/
structure PartialTaskType where
  id : Option String := none
  name : Option String := none
  description : Option String := none
  category : Option String := none
  defaultPriority : Option (Option String) := none
  estimatedHours : Option Nat := none
  isActive : Option Bool := none
  createdAt : Option Nat := none
  milestones : Option (List Milestone) := none
deriving DecidableEq

/-- `{ ...taskType, ...updates, updatedAt: new Date() }`. -/
def mergeTaskType (now : Nat) (tt : TaskType) (p : PartialTaskType) : TaskType :=
  { id := p.id.getD tt.id
    name := p.name.getD tt.name
    description := p.description.getD tt.description
    category := p.category.getD tt.category
    defaultPriority := p.defaultPriority.getD tt.defaultPriority
    estimatedHours := p.estimatedHours.getD tt.estimatedHours
    isActive := p.isActive.getD tt.isActive
    createdAt := p.createdAt.getD tt.createdAt
    updatedAt := some now
    milestones := p.milestones.getD tt.milestones }

/-- `syncTaskMilestones`: every task of the given task type has its
`milestoneProgress` filtered to the entries whose `milestoneId` still
occurs in the new milestone list, and its `updatedAt` stamped. -/
def syncTaskMilestones (now : Nat) (s : State) (taskTypeId : String)
    (newMilestones : List Milestone) : State :=
  { s with tasks := s.tasks.map (fun task =>
      if task.taskTypeId == taskTypeId then
        let currentProgress := task.milestoneProgress.getD []
        let updatedProgress := currentProgress.filter (fun progress =>
          newMilestones.any (fun milestone => milestone.id == progress.milestoneId))
        { task with milestoneProgress := some updatedProgress,
                    updatedAt := some now }
      else task) }

/-- The `Task milestones updated` notification sent to one user. -/
def milestoneUpdateData (taskTypeName userId : String) : NotificationData :=
  { type := "system"
    title := "Task milestones updated"
    message := "Milestones for \x22" ++ taskTypeName ++
      "\x22 tasks have been updated. Please review your tasks."
    isRead := false
    userId := userId
    taskId := none
    priority := some "medium" }

/-- One step of the inner `task.assignedUsers.forEach` loop of
`notifyMilestoneUpdates`: notify the user unless already notified and
record them in the `notifiedUsers` set. -/
def milestoneNotifyUserStep (now : Nat) (taskTypeName : String)
    (st : State × List String) (userId : String) : State × List String :=
  if userId ∉ st.2 then
    (addNotification now st.1 (milestoneUpdateData taskTypeName userId),
     st.2 ++ [userId])
  else st

/-- One step of the outer `affectedTasks.forEach` loop of
`notifyMilestoneUpdates`: notify the primary assignee (when truthy and
not yet notified), then every additional assigned user. -/
def milestoneNotifyTaskStep (now : Nat) (taskTypeName : String)
    (st : State × List String) (task : Task) : State × List String :=
  let st1 :=
    if task.assignedToId ≠ "" ∧ task.assignedToId ∉ st.2 then
      (addNotification now st.1 (milestoneUpdateData taskTypeName task.assignedToId),
       st.2 ++ [task.assignedToId])
    else st
  match task.assignedUsers with
  | some userIds => userIds.foldl (milestoneNotifyUserStep now taskTypeName) st1
  | none => st1

/-- `notifyMilestoneUpdates`: walk the affected tasks (those of the
task type, read from the React closure's `tasks`, i.e. the handler's
initial task list `origTasks`), notifying the primary assignee (when
truthy) and every additional assigned user, each user at most once via
the `notifiedUsers` set. -/
def notifyMilestoneUpdates (now : Nat) (origTasks : List Task) (acc : State)
    (taskTypeId taskTypeName : String) : State :=
  let affectedTasks := origTasks.filter (fun task => task.taskTypeId == taskTypeId)
  (affectedTasks.foldl (milestoneNotifyTaskStep now taskTypeName) (acc, [])).1

/-- `updateTaskType`: merge the patch into the matching task type
(stamping `updatedAt`); when the patch carries a milestone list and the
task type existed, synchronize every task's milestone progress and
notify the affected users. -/
def updateTaskType (now : Nat) (s : State) (id : String) (p : PartialTaskType) :
    State :=
  let originalTaskType := s.taskTypes.find? (fun tt => tt.id == id)
  let s1 := { s with taskTypes := s.taskTypes.map (fun tt =>
      if tt.id == id then mergeTaskType now tt p else tt) }
  match p.milestones, originalTaskType with
  | some ms, some ott =>
    let s2 := syncTaskMilestones now s1 id ms
    notifyMilestoneUpdates now s.tasks s2 id ott.name
  | _, _ => s1

/-- The overdue test of `checkOverdueTasks`: due date strictly in the
past and status neither `completed` nor `approved`. -/
def isOverdue (now : Nat) (task : Task) : Bool :=
  task.dueDate < now && task.status ≠ "completed" && task.status ≠ "approved"

/-- The duplicate-suppression test of `checkOverdueTasks`: an existing
notification for the same task of type `task` whose title contains the
substring `overdue`. -/
def hasOverdueNotification (ns : List Notification) (task : Task) : Bool :=
  ns.any (fun n =>
    n.taskId == some task.id && n.type == "task" && containsSubstr "overdue" n.title)

/-- One step of the `tasks.forEach` loop of `checkOverdueTasks`: emit
the overdue notification into `acc` when the task is overdue and no
existing notification (in the pre-scan list `s.notifications`) already
covers it. -/
def overdueStep (now : Nat) (s : State) (acc : State) (task : Task) : State :=
  if isOverdue now task then
    if hasOverdueNotification s.notifications task then acc
    else generateTaskNotification now s acc task .overdue
  else acc

/-- `checkOverdueTasks`: scan all tasks; each overdue task without an
existing overdue notification gets the `overdue` task notification.
The duplicate test reads the React closure's `notifications` (the
pre-scan list), while the emitted notifications accumulate. -/
def checkOverdueTasks (now : Nat) (s : State) : State :=
  s.tasks.foldl (overdueStep now s) s

/-- The notification one pass of the overdue scan emits for a task
(`none` when the task is not overdue, already covered, or has no
assignee). -/
def overdueEmit (now : Nat) (s : State) (task : Task) : Option Notification :=
  if isOverdue now task then
    if hasOverdueNotification s.notifications task then none
    else if (taskNotificationData s task .overdue).2 ≠ "" then
      some (mkNotification now (taskNotificationData s task .overdue).1)
    else none
  else none

/-- Is a notification the `Task overdue` notification of this task? -/
def overdueNotifFor (task : Task) (n : Notification) : Bool :=
  n.taskId == some task.id && n.title == "Task overdue"

/-! ### Derived notions about task numbers -/

/-- The numeric suffixes extracted by `generateTaskNumber` from the
existing task numbers. -/
def taskSuffixes (tasks : List Task) : List Nat :=
  ((tasks.map Task.taskNumber).filter matchesT3).map parseSuffix

/-- The running maximum that `generateTaskNumber` increments (`0` when
no task number matches the pattern). -/
def maxSuffix (tasks : List Task) : Nat :=
  (taskSuffixes tasks).foldl max 0

/-- A sequence of `addTask` calls, each with its own clock reading. -/
def runAddTasks (s : State) : List (Nat × TaskInput) → State
  | [] => s
  | (now, d) :: l => runAddTasks (addTask now s d) l

/-- The task numbers assigned to the tasks a sequence of `addTask`
calls appends (the stored task list minus its original prefix). -/
def genNumbers (s : State) (l : List (Nat × TaskInput)) : List String :=
  (((runAddTasks s l).tasks).map Task.taskNumber).drop s.tasks.length

/-! ### Concrete sample data for witnesses and counterexamples -/

/-- A state with every collection empty. -/
def emptyState : State :=
  { users := [], clients := [], taskTypes := [], tasks := [],
    chatMessages := [], notifications := [] }

/-- A sample admin user. -/
def userA : User :=
  { id := "1", name := "Admin User", email := "admin@ca.com", role := "admin",
    department := some "Management", status := some "active", createdAt := 0,
    password := some "admin123" }

/-- A sample ordinary user. -/
def userB : User :=
  { id := "2", name := "John Doe", email := "john@ca.com", role := "user",
    department := some "Accounting", status := some "active", createdAt := 0,
    password := some "john123" }

/-- A sample client. -/
def clientC : Client :=
  { id := "1", name := "ABC Limited", email := "contact@abc.com",
    phone := "+1-555-1001", address := "123 Business Street",
    contactPerson := some "Michael Johnson", isActive := true, createdAt := 0 }

/-- A sample milestone. -/
def milestone1 : Milestone :=
  { id := "m1", name := "Document Collection", description := "Collect documents",
    estimatedHours := 2, order := 1 }

/-- A second sample milestone. -/
def milestone2 : Milestone :=
  { id := "m2", name := "Data Entry", description := "Enter data",
    estimatedHours := 3, order := 2 }

/-- A sample task type owning two milestones. -/
def taskTypeT : TaskType :=
  { id := "1", name := "Tax Return Preparation", description := "Prepare returns",
    category := "Tax", defaultPriority := some "medium", estimatedHours := 8,
    isActive := true, createdAt := 0, updatedAt := none,
    milestones := [milestone1, milestone2] }

/-- A sample task assigned by `userA` to `userB`. -/
def baseTask : Task :=
  { id := "10", taskNumber := "T001", title := "Tax Return Preparation",
    description := "Prepare tax returns", taskTypeId := "1", clientId := "1",
    assignedToId := "2", assignedById := "1", status := "pending",
    priority := "high", dueDate := 100, estimatedHours := 8,
    actualHours := none, createdAt := 0, updatedAt := none,
    isRecurring := false, recurringInterval := none,
    assignedUsers := some ["2"],
    milestoneProgress := some
      [{ milestoneId := "m1", completed := true, completedAt := some 5,
         completedById := some "2" },
       { milestoneId := "m2", completed := false, completedAt := none,
         completedById := none }],
    activityLog := some
      [{ id := "1", userId := "1", userName := "Admin User",
         action := "Task created and assigned to John Doe", timestamp := 0 }],
    updatedById := none }

/-- A sample `addTask` input assigning to `userB`. -/
def baseInput : TaskInput :=
  { title := "Audit Preparation", description := "Prepare documentation",
    taskTypeId := "1", clientId := "1", assignedToId := "2",
    assignedById := "1", status := "pending", priority := "urgent",
    dueDate := 200, estimatedHours := 16, actualHours := none,
    updatedAt := none, isRecurring := false, recurringInterval := none,
    assignedUsers := none, milestoneProgress := none, activityLog := none,
    updatedById := none }

/-- A sample state holding the users, the client, the task type and the
task above. -/
def baseState : State :=
  { users := [userA, userB], clients := [clientC], taskTypes := [taskTypeT],
    tasks := [baseTask], chatMessages := [], notifications := [] }

/-- A sample chat message sent by `userA` in the sample task's
thread. -/
def chatMsg : ChatMessage :=
  { id := "c0", taskId := "10", userId := "1", userName := "Admin User",
    message := "Please start working on this tax return preparation right away.",
    timestamp := 4 }

/-- A sample pair of notifications addressed to two different users. -/
def notifPair : List Notification :=
  [{ id := "1", type := "task", title := "Task overdue",
     message := "Tax Return Preparation was due", timestamp := 0,
     isRead := false, userId := "2", taskId := some "10",
     priority := some "urgent" },
   { id := "2", type := "system", title := "New user added",
     message := "Jane has been added", timestamp := 1,
     isRead := false, userId := "3", taskId := none, priority := none }]

/-! ### Supporting lemmas -/

theorem foldl_max_init_le (l : List Nat) (a : Nat) : a ≤ l.foldl max a := by
  induction l generalizing a with
  | nil => exact le_refl a
  | cons c cs ih => exact le_trans (le_max_left a c) (ih (max a c))

theorem mem_le_foldl_max (l : List Nat) (a x : Nat) (hx : x ∈ l) :
    x ≤ l.foldl max a := by
  induction l generalizing a with
  | nil => cases hx
  | cons c cs ih =>
    rcases List.mem_cons.mp hx with h | h
    · subst h
      exact le_trans (le_max_right a x) (foldl_max_init_le cs _)
    · exact ih _ h

theorem foldl_max_concat (l : List Nat) (a x : Nat) :
    (l ++ [x]).foldl max a = max (l.foldl max a) x := by
  rw [List.foldl_append]
  rfl

theorem generateTaskNumber_eq (tasks : List Task) :
    generateTaskNumber tasks = renderTaskNumber (maxSuffix tasks + 1) := by
  unfold generateTaskNumber maxSuffix taskSuffixes
  cases h : ((tasks.map Task.taskNumber).filter matchesT3).map parseSuffix with
  | nil => simp [h]
  | cons c cs => simp [h]

set_option maxRecDepth 10000

theorem renderTaskNumber_spec : ∀ n, n < 1000 → 1 ≤ n →
    matchesT3 (renderTaskNumber n) = true ∧ parseSuffix (renderTaskNumber n) = n := by
  decide

theorem generateTaskNotification_tasks (now : Nat) (s0 acc : State) (task : Task)
    (ev : TaskEvent) :
    (generateTaskNotification now s0 acc task ev).tasks = acc.tasks := by
  simp only [generateTaskNotification, addNotification]
  split <;> rfl

theorem addTask_tasks (now : Nat) (s : State) (d : TaskInput) :
    (addTask now s d).tasks = s.tasks ++ [mkNewTask now s d] := by
  unfold addTask
  rw [generateTaskNotification_tasks, generateTaskNotification_tasks]

theorem taskSuffixes_append (tasks : List Task) (t : Task) :
    taskSuffixes (tasks ++ [t]) = taskSuffixes tasks ++
      (if matchesT3 t.taskNumber then [parseSuffix t.taskNumber] else []) := by
  unfold taskSuffixes
  rw [List.map_append, List.filter_append, List.map_append]
  by_cases h : matchesT3 t.taskNumber <;> simp [h]

theorem maxSuffix_append_matched (tasks : List Task) (t : Task)
    (h : matchesT3 t.taskNumber = true) :
    maxSuffix (tasks ++ [t]) = max (maxSuffix tasks) (parseSuffix t.taskNumber) := by
  unfold maxSuffix
  rw [taskSuffixes_append, h]
  simp [foldl_max_concat]

theorem runAddTasks_tasks_split (l : List (Nat × TaskInput)) (s : State) :
    ∃ ts, (runAddTasks s l).tasks = s.tasks ++ ts := by
  induction l generalizing s with
  | nil => exact ⟨[], by simp [runAddTasks]⟩
  | cons p rest ih =>
    obtain ⟨now, d⟩ := p
    obtain ⟨ts, hts⟩ := ih (addTask now s d)
    refine ⟨[mkNewTask now s d] ++ ts, ?_⟩
    show (runAddTasks (addTask now s d) rest).tasks = _
    rw [hts, addTask_tasks, List.append_assoc]

theorem genNumbers_cons (s : State) (now : Nat) (d : TaskInput)
    (l : List (Nat × TaskInput)) :
    genNumbers s ((now, d) :: l) =
      generateTaskNumber s.tasks :: genNumbers (addTask now s d) l := by
  unfold genNumbers
  obtain ⟨ts, hts⟩ := runAddTasks_tasks_split l (addTask now s d)
  have h1 : runAddTasks s ((now, d) :: l) = runAddTasks (addTask now s d) l := rfl
  rw [h1, hts, addTask_tasks]
  rw [show List.map Task.taskNumber ((s.tasks ++ [mkNewTask now s d]) ++ ts) =
      (List.map Task.taskNumber s.tasks ++ [(mkNewTask now s d).taskNumber]) ++
        List.map Task.taskNumber ts from by simp]
  rw [show (s.tasks ++ [mkNewTask now s d]).length =
      (List.map Task.taskNumber s.tasks ++ [(mkNewTask now s d).taskNumber]).length
    from by simp]
  rw [List.drop_left]
  rw [List.append_assoc]
  rw [show s.tasks.length = (List.map Task.taskNumber s.tasks).length from by simp]
  rw [List.drop_left]
  rfl

theorem genNumbers_formula (l : List (Nat × TaskInput)) (s : State)
    (h : maxSuffix s.tasks + l.length ≤ 999) :
    genNumbers s l = (List.range l.length).map
        (fun j => renderTaskNumber (maxSuffix s.tasks + j + 1)) ∧
    maxSuffix (runAddTasks s l).tasks = maxSuffix s.tasks + l.length := by
  induction l generalizing s with
  | nil => simp [genNumbers, runAddTasks]
  | cons p rest ih =>
    obtain ⟨now, d⟩ := p
    have hlen : ((now, d) :: rest).length = rest.length + 1 := rfl
    have hm1 : 1 ≤ maxSuffix s.tasks + 1 ∧ maxSuffix s.tasks + 1 < 1000 := by
      rw [hlen] at h; omega
    have hrender := renderTaskNumber_spec (maxSuffix s.tasks + 1) hm1.2 hm1.1
    have hgen : generateTaskNumber s.tasks = renderTaskNumber (maxSuffix s.tasks + 1) :=
      generateTaskNumber_eq s.tasks
    have hnum : (mkNewTask now s d).taskNumber = generateTaskNumber s.tasks := rfl
    have hmatch : matchesT3 (mkNewTask now s d).taskNumber = true := by
      rw [hnum, hgen]; exact hrender.1
    have hmax : maxSuffix (addTask now s d).tasks = maxSuffix s.tasks + 1 := by
      rw [addTask_tasks, maxSuffix_append_matched _ _ hmatch, hnum, hgen, hrender.2]
      omega
    have hrest : maxSuffix (addTask now s d).tasks + rest.length ≤ 999 := by
      rw [hlen] at h
      rw [hmax]
      omega
    have ih' := ih (addTask now s d) hrest
    have hrun : runAddTasks s ((now, d) :: rest) = runAddTasks (addTask now s d) rest := rfl
    constructor
    · rw [genNumbers_cons, ih'.1, hmax, hlen, List.range_succ_eq_map,
        List.map_cons, List.map_map, hgen]
      rw [List.cons.injEq]
      constructor
      · rfl
      · refine List.map_congr_left ?_
        intro j _
        simp only [Function.comp_apply]
        congr 1
        omega
    · rw [hrun, ih'.2, hmax, hlen]
      omega

/-- Claim C1 (amended): for every starting state and sequence of
`addTask` calls, as long as the maximum matched numeric suffix plus
the number of calls stays at most 999, the assigned `taskNumber`
values extend the stored list, are strictly increasing by numeric
suffix, all match the 3-digit zero-padded `T` pattern, are pairwise
distinct, and the first call on an empty task list yields `T001`.
(As originally stated the claim fails once the suffix passes 999: the
`padStart` rendering emits `T1000`, which escapes the pattern, so the
next scan regenerates `T1000`.) -/
theorem addTask_taskNumbers_correct (s : State) (l : List (Nat × TaskInput))
    (h : maxSuffix s.tasks + l.length ≤ 999) :
    ((runAddTasks s l).tasks.map Task.taskNumber) =
        (s.tasks.map Task.taskNumber) ++ genNumbers s l ∧
    (genNumbers s l).Pairwise (fun a b => parseSuffix a < parseSuffix b) ∧
    (∀ x ∈ genNumbers s l, matchesT3 x = true) ∧
    (genNumbers s l).Nodup ∧
    (s.tasks = [] → l ≠ [] → (genNumbers s l).head? = some "T001") := by
  obtain ⟨hform, _⟩ := genNumbers_formula l s h
  have hbound : ∀ j, j < l.length →
      matchesT3 (renderTaskNumber (maxSuffix s.tasks + j + 1)) = true ∧
      parseSuffix (renderTaskNumber (maxSuffix s.tasks + j + 1)) =
        maxSuffix s.tasks + j + 1 := by
    intro j hj
    exact renderTaskNumber_spec _ (by omega) (by omega)
  have hpair : (genNumbers s l).Pairwise (fun a b => parseSuffix a < parseSuffix b) := by
    rw [hform, List.pairwise_map]
    refine (List.pairwise_lt_range l.length).imp_of_mem ?_
    intro a b ha hb hab
    rw [(hbound a (List.mem_range.mp ha)).2, (hbound b (List.mem_range.mp hb)).2]
    omega
  refine ⟨?_, hpair, ?_, ?_, ?_⟩
  · obtain ⟨ts, hts⟩ := runAddTasks_tasks_split l s
    rw [hts, List.map_append]
    congr 1
    unfold genNumbers
    rw [hts, List.map_append,
      show s.tasks.length = (List.map Task.taskNumber s.tasks).length from by simp,
      List.drop_left]
  · intro x hx
    rw [hform] at hx
    obtain ⟨j, hj, rfl⟩ := List.mem_map.mp hx
    exact (hbound j (List.mem_range.mp hj)).1
  · show (genNumbers s l).Pairwise (fun a b => a ≠ b)
    refine hpair.imp ?_
    intro a b hab hcontra
    rw [hcontra] at hab
    omega
  · intro hs hl
    rw [hform]
    cases l with
    | nil => exact absurd rfl hl
    | cons p rest =>
      have hms : maxSuffix s.tasks = 0 := by rw [hs]; rfl
      simp [List.range_succ_eq_map, hms]
      rfl

/-- Claim C1 witness: two `addTask` calls on the empty state satisfy
the bound and all the amended properties. -/
theorem addTask_taskNumbers_correct_witness :
    (maxSuffix emptyState.tasks + [(0, baseInput), (1, baseInput)].length ≤ 999) ∧
    (((runAddTasks emptyState [(0, baseInput), (1, baseInput)]).tasks.map Task.taskNumber) =
        (emptyState.tasks.map Task.taskNumber) ++
          genNumbers emptyState [(0, baseInput), (1, baseInput)] ∧
    (genNumbers emptyState [(0, baseInput), (1, baseInput)]).Pairwise
        (fun a b => parseSuffix a < parseSuffix b) ∧
    (∀ x ∈ genNumbers emptyState [(0, baseInput), (1, baseInput)], matchesT3 x = true) ∧
    (genNumbers emptyState [(0, baseInput), (1, baseInput)]).Nodup ∧
    (emptyState.tasks = [] → [(0, baseInput), (1, baseInput)] ≠ [] →
      (genNumbers emptyState [(0, baseInput), (1, baseInput)]).head? = some "T001")) :=
  ⟨by decide, addTask_taskNumbers_correct emptyState [(0, baseInput), (1, baseInput)]
    (by decide)⟩

/-- Claim C1 counterexample: starting from a task list whose maximum
suffix is 999 (reachable by 999 generated tasks), the next two calls
both produce `T1000`: the generated numbers are neither unique nor of
the 3-digit zero-padded form. -/
theorem addTask_taskNumbers_overflow :
    genNumbers { baseState with tasks := [{ baseTask with taskNumber := "T999" }] }
        [(0, baseInput), (1, baseInput)] = ["T1000", "T1000"] ∧
    ¬ (genNumbers { baseState with tasks := [{ baseTask with taskNumber := "T999" }] }
        [(0, baseInput), (1, baseInput)]).Nodup ∧
    matchesT3 "T1000" = false := by
  decide

theorem generateTaskNotification_spec (now : Nat) (s0 acc : State) (task : Task)
    (ev : TaskEvent) :
    generateTaskNotification now s0 acc task ev =
      if (taskNotificationData s0 task ev).2 ≠ "" then
        { acc with notifications := acc.notifications ++
            [mkNotification now (taskNotificationData s0 task ev).1] }
      else acc := rfl

theorem addTask_eq (now : Nat) (s : State) (d : TaskInput) :
    addTask now s d =
      generateTaskNotification now s
        (generateTaskNotification now s { s with tasks := s.tasks ++ [mkNewTask now s d] }
          (mkNewTask now s d) .created)
        (mkNewTask now s d) .assigned := rfl

/-- Claim C6: `updateTask` and `deleteTask` on an id no task carries
are silent no-ops: the whole state (every collection) is returned
unchanged and no notification is emitted. -/
theorem update_delete_nonexistent_noop (now : Nat) (s : State) (id : String)
    (p : PartialTask) (h : ∀ t ∈ s.tasks, t.id ≠ id) :
    updateTask now s id p = s ∧ deleteTask s id = s := by
  constructor
  · unfold updateTask
    have hfind : s.tasks.find? (fun t => t.id == id) = none := by
      rw [List.find?_eq_none]
      intro t ht
      simpa using h t ht
    rw [hfind]
  · unfold deleteTask
    have hfilter : s.tasks.filter (fun t => !(t.id == id)) = s.tasks := by
      rw [List.filter_eq_self]
      intro t ht
      simpa using h t ht
    rw [hfilter]

/-- Claim C6 witness: the sample state holds only task id 10, so
updating or deleting id 999 changes nothing. -/
theorem update_delete_nonexistent_noop_witness :
    (∀ t ∈ baseState.tasks, t.id ≠ "999") ∧
    (updateTask 5 baseState "999" {} = baseState ∧ deleteTask baseState "999" = baseState) :=
  ⟨by decide, update_delete_nonexistent_noop 5 baseState "999" {} (by decide)⟩

/-- Claim C8: `markAllNotificationsAsRead` sets `isRead` on exactly the
notifications of the given user, adds and removes none, and applying
it twice yields the identical collection. -/
theorem markAllNotificationsAsRead_correct (s : State) (userId : String) :
    markAllNotificationsAsRead (markAllNotificationsAsRead s userId) userId =
      markAllNotificationsAsRead s userId ∧
    (markAllNotificationsAsRead s userId).notifications.length =
      s.notifications.length ∧
    (∀ i (h : i < s.notifications.length)
        (h' : i < (markAllNotificationsAsRead s userId).notifications.length),
      ((s.notifications.get ⟨i, h⟩).userId = userId →
        (markAllNotificationsAsRead s userId).notifications.get ⟨i, h'⟩ =
          { s.notifications.get ⟨i, h⟩ with isRead := true }) ∧
      ((s.notifications.get ⟨i, h⟩).userId ≠ userId →
        (markAllNotificationsAsRead s userId).notifications.get ⟨i, h'⟩ =
          s.notifications.get ⟨i, h⟩)) := by
  refine ⟨?_, by simp [markAllNotificationsAsRead], ?_⟩
  · have hmap : (s.notifications.map (fun n =>
        if n.userId == userId then { n with isRead := true } else n)).map
          (fun n => if n.userId == userId then { n with isRead := true } else n) =
        s.notifications.map (fun n =>
          if n.userId == userId then { n with isRead := true } else n) := by
      rw [List.map_map]
      refine List.map_congr_left ?_
      intro n _
      by_cases h : n.userId == userId
      · simp [Function.comp, h]
      · simp [Function.comp, h]
    exact congrArg (fun x => { s with notifications := x }) hmap
  · intro i h h'
    constructor
    · intro hu
      simp only [List.get_eq_getElem] at hu ⊢
      simp [markAllNotificationsAsRead, List.getElem_map, hu]
    · intro hu
      simp only [List.get_eq_getElem] at hu ⊢
      simp [markAllNotificationsAsRead, List.getElem_map, hu]

/-- Claim C8 witness: the property evaluated on a concrete two-element
notification collection. -/
theorem markAllNotificationsAsRead_correct_witness :
    markAllNotificationsAsRead
        (markAllNotificationsAsRead { baseState with notifications := notifPair } "2") "2" =
      markAllNotificationsAsRead { baseState with notifications := notifPair } "2" ∧
    (markAllNotificationsAsRead { baseState with notifications := notifPair } "2").notifications.length =
      ({ baseState with notifications := notifPair } : State).notifications.length ∧
    (∀ i (h : i < ({ baseState with notifications := notifPair } : State).notifications.length)
        (h' : i < (markAllNotificationsAsRead { baseState with notifications := notifPair } "2").notifications.length),
      ((({ baseState with notifications := notifPair } : State).notifications.get ⟨i, h⟩).userId = "2" →
        (markAllNotificationsAsRead { baseState with notifications := notifPair } "2").notifications.get ⟨i, h'⟩ =
          { ({ baseState with notifications := notifPair } : State).notifications.get ⟨i, h⟩ with isRead := true }) ∧
      ((({ baseState with notifications := notifPair } : State).notifications.get ⟨i, h⟩).userId ≠ "2" →
        (markAllNotificationsAsRead { baseState with notifications := notifPair } "2").notifications.get ⟨i, h'⟩ =
          ({ baseState with notifications := notifPair } : State).notifications.get ⟨i, h⟩)) :=
  markAllNotificationsAsRead_correct { baseState with notifications := notifPair } "2"

/-- Claim C9: `addTask` with a nonempty `assignedToId` records exactly
two notifications for that user, titled `New task created` and
`Task assigned to you`, both carrying the new task's id and
priority. -/
theorem addTask_two_notifications (now : Nat) (s : State) (d : TaskInput)
    (h : d.assignedToId ≠ "") :
    ∃ t n1 n2, (addTask now s d).tasks = s.tasks ++ [t] ∧
      (addTask now s d).notifications = s.notifications ++ [n1, n2] ∧
      n1.title = "New task created" ∧ n2.title = "Task assigned to you" ∧
      n1.userId = d.assignedToId ∧ n2.userId = d.assignedToId ∧
      n1.taskId = some t.id ∧ n2.taskId = some t.id ∧
      n1.priority = some d.priority ∧ n2.priority = some d.priority := by
  refine ⟨mkNewTask now s d,
    mkNotification now (taskNotificationData s (mkNewTask now s d) .created).1,
    mkNotification now (taskNotificationData s (mkNewTask now s d) .assigned).1,
    addTask_tasks now s d, ?_, rfl, rfl, rfl, rfl, rfl, rfl, rfl, rfl⟩
  rw [addTask_eq, generateTaskNotification_spec, generateTaskNotification_spec]
  rw [if_pos (show (taskNotificationData s (mkNewTask now s d) TaskEvent.created).2 ≠ ""
    from h)]
  rw [if_pos (show (taskNotificationData s (mkNewTask now s d) TaskEvent.assigned).2 ≠ ""
    from h)]
  simp

/-- Claim C9 witness: adding `baseInput` (assigned to user 2) to the
sample state records the two notifications. -/
theorem addTask_two_notifications_witness :
    (baseInput.assignedToId ≠ "") ∧
    (∃ t n1 n2, (addTask 7 baseState baseInput).tasks = baseState.tasks ++ [t] ∧
      (addTask 7 baseState baseInput).notifications = baseState.notifications ++ [n1, n2] ∧
      n1.title = "New task created" ∧ n2.title = "Task assigned to you" ∧
      n1.userId = baseInput.assignedToId ∧ n2.userId = baseInput.assignedToId ∧
      n1.taskId = some t.id ∧ n2.taskId = some t.id ∧
      n1.priority = some baseInput.priority ∧ n2.priority = some baseInput.priority) :=
  ⟨by decide, addTask_two_notifications 7 baseState baseInput (by decide)⟩

/-- Claim C10: the stored task's `assignedUsers` defaults to the
one-element list holding `assignedToId` when the input omits the list,
and a supplied non-empty list is stored unchanged. -/
theorem addTask_assignedUsers_default (now : Nat) (s : State) (d : TaskInput) :
    ∃ t, (addTask now s d).tasks = s.tasks ++ [t] ∧
      (d.assignedUsers = none → t.assignedUsers = some [d.assignedToId]) ∧
      (∀ lu, d.assignedUsers = some lu → lu ≠ [] → t.assignedUsers = some lu) := by
  refine ⟨mkNewTask now s d, addTask_tasks now s d, ?_, ?_⟩
  · intro h
    simp [mkNewTask, h]
  · intro lu h _
    simp [mkNewTask, h]

/-- Claim C10 witness: `baseInput` omits `assignedUsers`, so the stored
task carries `[assignedToId]`. -/
theorem addTask_assignedUsers_default_witness :
    ∃ t, (addTask 3 baseState baseInput).tasks = baseState.tasks ++ [t] ∧
      (baseInput.assignedUsers = none → t.assignedUsers = some [baseInput.assignedToId]) ∧
      (∀ lu, baseInput.assignedUsers = some lu → lu ≠ [] → t.assignedUsers = some lu) :=
  addTask_assignedUsers_default 3 baseState baseInput

theorem milestoneNotifyUserStep_tasks (now : Nat) (n : String)
    (st : State × List String) (u : String) :
    ((milestoneNotifyUserStep now n st u).1).tasks = (st.1).tasks := by
  unfold milestoneNotifyUserStep
  split <;> rfl

theorem userFold_tasks (now : Nat) (n : String) (us : List String) :
    ∀ st : State × List String,
      ((us.foldl (milestoneNotifyUserStep now n) st).1).tasks = (st.1).tasks := by
  induction us with
  | nil => intro st; rfl
  | cons u rest ih =>
    intro st
    rw [List.foldl_cons, ih, milestoneNotifyUserStep_tasks]

theorem milestoneNotifyTaskStep_tasks (now : Nat) (n : String)
    (st : State × List String) (t : Task) :
    ((milestoneNotifyTaskStep now n st t).1).tasks = (st.1).tasks := by
  unfold milestoneNotifyTaskStep
  cases hau : t.assignedUsers with
  | some us =>
    simp only [hau]
    rw [userFold_tasks]
    split <;> rfl
  | none =>
    simp only [hau]
    split <;> rfl

theorem taskFold_tasks (now : Nat) (n : String) (ts : List Task) :
    ∀ st : State × List String,
      ((ts.foldl (milestoneNotifyTaskStep now n) st).1).tasks = (st.1).tasks := by
  induction ts with
  | nil => intro st; rfl
  | cons t rest ih =>
    intro st
    rw [List.foldl_cons, ih, milestoneNotifyTaskStep_tasks]

theorem notifyMilestoneUpdates_tasks (now : Nat) (origTasks : List Task)
    (acc : State) (ttid n : String) :
    (notifyMilestoneUpdates now origTasks acc ttid n).tasks = acc.tasks := by
  unfold notifyMilestoneUpdates
  rw [taskFold_tasks]

theorem updateTaskType_tasks_eq (now : Nat) (s : State) (id : String)
    (p : PartialTaskType) (newMs : List Milestone) (ott : TaskType)
    (hms : p.milestones = some newMs)
    (hfind : s.taskTypes.find? (fun tt => tt.id == id) = some ott) :
    (updateTaskType now s id p).tasks = s.tasks.map (fun task =>
      if task.taskTypeId == id then
        { task with
          milestoneProgress := some ((task.milestoneProgress.getD []).filter
            (fun progress => newMs.any (fun m => m.id == progress.milestoneId))),
          updatedAt := some now }
      else task) := by
  simp only [updateTaskType, hms, hfind]
  rw [notifyMilestoneUpdates_tasks]
  rfl

/-- Claim C3: after `updateTaskType` replaces a TaskType's milestone
list, every task of that type keeps exactly the `milestoneProgress`
entries whose `milestoneId` occurs in the new milestone list
(surviving entries preserved unchanged, in order), and in particular
no retained entry references a removed milestone. -/
theorem updateTaskType_prunes_milestoneProgress (now : Nat) (s : State)
    (id : String) (p : PartialTaskType) (newMs : List Milestone) (ott : TaskType)
    (hms : p.milestones = some newMs)
    (hfind : s.taskTypes.find? (fun tt => tt.id == id) = some ott) :
    (updateTaskType now s id p).tasks.length = s.tasks.length ∧
    (∀ i (h : i < s.tasks.length) (h' : i < (updateTaskType now s id p).tasks.length),
      (s.tasks.get ⟨i, h⟩).taskTypeId = id →
      ((updateTaskType now s id p).tasks.get ⟨i, h'⟩).milestoneProgress =
        some (((s.tasks.get ⟨i, h⟩).milestoneProgress.getD []).filter
          (fun progress => newMs.any (fun m => m.id == progress.milestoneId))) ∧
      ∀ pr ∈ (((updateTaskType now s id p).tasks.get ⟨i, h'⟩).milestoneProgress.getD []),
        ∃ m ∈ newMs, m.id = pr.milestoneId) := by
  have htasks := updateTaskType_tasks_eq now s id p newMs ott hms hfind
  constructor
  · rw [htasks]
    simp
  · intro i h h' hTid
    have hget : ((updateTaskType now s id p).tasks.get ⟨i, h'⟩) =
        { s.tasks.get ⟨i, h⟩ with
          milestoneProgress := some (((s.tasks.get ⟨i, h⟩).milestoneProgress.getD []).filter
            (fun progress => newMs.any (fun m => m.id == progress.milestoneId))),
          updatedAt := some now } := by
      simp only [List.get_eq_getElem] at hTid ⊢
      rw [List.getElem_of_eq htasks h']
      simp only [List.getElem_map]
      rw [if_pos (by simpa using hTid)]
    refine ⟨by rw [hget], ?_⟩
    intro pr hpr
    rw [hget] at hpr
    simp only [Option.getD_some] at hpr
    obtain ⟨hmem, hany⟩ := List.mem_filter.mp hpr
    obtain ⟨m, hm, hbeq⟩ := List.any_eq_true.mp hany
    exact ⟨m, hm, by simpa using hbeq⟩

theorem msgFold_eq (now : Nat) (f : String → NotificationData) (l : List String) :
    ∀ acc : State,
      l.foldl (fun a userId =>
        if userId ≠ "" then addNotification now a (f userId) else a) acc =
      { acc with notifications := acc.notifications ++
          (l.filter (fun r => !(r == ""))).map (fun r => mkNotification now (f r)) } := by
  induction l with
  | nil =>
    intro acc
    simp
  | cons r rest ih =>
    intro acc
    rw [List.foldl_cons]
    by_cases hr : r = ""
    · subst hr
      rw [if_neg (by simp)]
      rw [ih acc]
      simp
    · rw [if_pos hr]
      rw [ih (addNotification now acc (f r))]
      simp [addNotification, hr]

theorem generateMessageNotification_none (now : Nat) (s0 acc : State)
    (msg : ChatMessage)
    (hfind : s0.tasks.find? (fun t => t.id == msg.taskId) = none) :
    generateMessageNotification now s0 acc msg = acc := by
  unfold generateMessageNotification
  rw [hfind]

theorem generateMessageNotification_some (now : Nat) (s0 acc : State)
    (msg : ChatMessage) (task : Task)
    (hfind : s0.tasks.find? (fun t => t.id == msg.taskId) = some task) :
    generateMessageNotification now s0 acc msg =
      { acc with notifications := (acc.notifications ++
          ((([task.assignedToId, task.assignedById]).filter
              (fun i => !(i == msg.userId))).filter (fun r => !(r == ""))).map
            (fun r => mkNotification now (messageNotificationData s0 task msg r))) } := by
  unfold generateMessageNotification
  rw [hfind]
  exact msgFold_eq now _ _ acc

/-- Claim C3 witness: replacing the two-milestone list of task type 1
by just the first milestone prunes the second milestone's progress
entry from the sample task. -/
theorem updateTaskType_prunes_milestoneProgress_witness :
    (({ milestones := some [milestone1] } : PartialTaskType).milestones =
        some [milestone1]) ∧
    (baseState.taskTypes.find? (fun tt => tt.id == "1") = some taskTypeT) ∧
    ((updateTaskType 9 baseState "1" { milestones := some [milestone1] }).tasks.length =
        baseState.tasks.length ∧
    (∀ i (h : i < baseState.tasks.length)
        (h' : i < (updateTaskType 9 baseState "1"
          { milestones := some [milestone1] }).tasks.length),
      (baseState.tasks.get ⟨i, h⟩).taskTypeId = "1" →
      ((updateTaskType 9 baseState "1"
          { milestones := some [milestone1] }).tasks.get ⟨i, h'⟩).milestoneProgress =
        some (((baseState.tasks.get ⟨i, h⟩).milestoneProgress.getD []).filter
          (fun progress => [milestone1].any (fun m => m.id == progress.milestoneId))) ∧
      ∀ pr ∈ (((updateTaskType 9 baseState "1"
          { milestones := some [milestone1] }).tasks.get ⟨i, h'⟩).milestoneProgress.getD []),
        ∃ m ∈ [milestone1], m.id = pr.milestoneId)) :=
  ⟨rfl, by decide,
    updateTaskType_prunes_milestoneProgress 9 baseState "1"
      { milestones := some [milestone1] } [milestone1] taskTypeT rfl (by decide)⟩

/-- Claim C7: for every `addChatMessage` call whose `taskId` names an
existing task, each of the task's primary assignee and assigner whose
id differs from the sender's receives a notification titled
`New message in <task title>` whose body is the sender's name and the
first 50 characters of the message, ellipsized exactly when the
message is longer than 50 characters; the sender receives no new
notification, and none is generated when no task has that id. -/
theorem addChatMessage_notifies_participants (now : Nat) (s : State)
    (msg : ChatMessage) :
    (s.tasks.find? (fun t => t.id == msg.taskId) = none →
      (addChatMessage now s msg).notifications = s.notifications) ∧
    (∀ task u, s.tasks.find? (fun t => t.id == msg.taskId) = some task →
      s.users.find? (fun v => v.id == msg.userId) = some u → u.name ≠ "" →
      ∀ r ∈ [task.assignedToId, task.assignedById], r ≠ msg.userId → r ≠ "" →
        (addChatMessage now s msg).notifications.countP
            (chatNotifMatches task r (truncatedBody u.name msg.message)) ≥
          s.notifications.countP
            (chatNotifMatches task r (truncatedBody u.name msg.message)) + 1) ∧
    (∀ n ∈ (addChatMessage now s msg).notifications,
      n ∉ s.notifications → n.userId ≠ msg.userId) := by
  have haddeq : addChatMessage now s msg =
      generateMessageNotification now s
        { s with chatMessages := s.chatMessages ++ [{ msg with id := toString now }] }
        { msg with id := toString now } := rfl
  refine ⟨?_, ?_, ?_⟩
  · intro hf
    rw [haddeq, generateMessageNotification_none now s _ { msg with id := toString now } hf]
  · intro task u hfT hfU hname r hr hrs hrne
    have hns : (addChatMessage now s msg).notifications =
        s.notifications ++
          ((([task.assignedToId, task.assignedById]).filter
              (fun i => !(i == msg.userId))).filter (fun x => !(x == ""))).map
            (fun x => mkNotification now
              (messageNotificationData s task { msg with id := toString now } x)) := by
      rw [haddeq,
        generateMessageNotification_some now s _ { msg with id := toString now } task hfT]
    rw [hns, List.countP_append]
    have hmem : r ∈ (([task.assignedToId, task.assignedById]).filter
        (fun i => !(i == msg.userId))).filter (fun x => !(x == "")) := by
      refine List.mem_filter.mpr ⟨List.mem_filter.mpr ⟨hr, ?_⟩, ?_⟩
      · simp [hrs]
      · simp [hrne]
    have hp : chatNotifMatches task r (truncatedBody u.name msg.message)
        (mkNotification now
          (messageNotificationData s task { msg with id := toString now } r)) = true := by
      simp [chatNotifMatches, mkNotification, messageNotificationData, jsOrStr, hfU, hname]
    have hpos : 0 < (((([task.assignedToId, task.assignedById]).filter
        (fun i => !(i == msg.userId))).filter (fun x => !(x == ""))).map
          (fun x => mkNotification now
            (messageNotificationData s task { msg with id := toString now } x))).countP
          (chatNotifMatches task r (truncatedBody u.name msg.message)) := by
      rw [List.countP_pos_iff]
      exact ⟨_, List.mem_map_of_mem _ hmem, hp⟩
    omega
  · intro n hn hnold
    cases hf : s.tasks.find? (fun t => t.id == msg.taskId) with
    | none =>
      rw [haddeq,
        generateMessageNotification_none now s _ { msg with id := toString now } hf] at hn
      exact absurd hn hnold
    | some task =>
      have hns : (addChatMessage now s msg).notifications =
          s.notifications ++
            ((([task.assignedToId, task.assignedById]).filter
                (fun i => !(i == msg.userId))).filter (fun x => !(x == ""))).map
              (fun x => mkNotification now
                (messageNotificationData s task { msg with id := toString now } x)) := by
        rw [haddeq,
          generateMessageNotification_some now s _ { msg with id := toString now } task hf]
      rw [hns] at hn
      rcases List.mem_append.mp hn with h | h
      · exact absurd h hnold
      · obtain ⟨x, hx, rfl⟩ := List.mem_map.mp h
        have hx1 := (List.mem_filter.mp (List.mem_filter.mp hx).1).2
        intro hcontra
        rw [show (mkNotification now
          (messageNotificationData s task { msg with id := toString now } x)).userId = x
          from rfl] at hcontra
        simp only [Bool.not_eq_true', beq_eq_false_iff_ne, ne_eq] at hx1
        exact hx1 hcontra

/-- Claim C7 witness: the sample admin sends a 63-character message in
the thread of task 10; user 2 (the assignee) is a participant distinct
from the sender. -/
theorem addChatMessage_notifies_participants_witness :
    (baseState.tasks.find? (fun t => t.id == chatMsg.taskId) = none →
      (addChatMessage 11 baseState chatMsg).notifications = baseState.notifications) ∧
    (∀ task u, baseState.tasks.find? (fun t => t.id == chatMsg.taskId) = some task →
      baseState.users.find? (fun v => v.id == chatMsg.userId) = some u → u.name ≠ "" →
      ∀ r ∈ [task.assignedToId, task.assignedById], r ≠ chatMsg.userId → r ≠ "" →
        (addChatMessage 11 baseState chatMsg).notifications.countP
            (chatNotifMatches task r (truncatedBody u.name chatMsg.message)) ≥
          baseState.notifications.countP
            (chatNotifMatches task r (truncatedBody u.name chatMsg.message)) + 1) ∧
    (∀ n ∈ (addChatMessage 11 baseState chatMsg).notifications,
      n ∉ baseState.notifications → n.userId ≠ chatMsg.userId) :=
  addChatMessage_notifies_participants 11 baseState chatMsg

theorem overdueStep_eq (now : Nat) (s acc : State) (task : Task) :
    overdueStep now s acc task =
      { acc with notifications := acc.notifications ++ (overdueEmit now s task).toList } := by
  unfold overdueStep overdueEmit
  split
  · split
    · simp
    · rw [generateTaskNotification_spec]
      split
      · rfl
      · simp
  · simp

theorem overdueFold_eq (now : Nat) (s : State) (l : List Task) :
    ∀ acc : State, l.foldl (overdueStep now s) acc =
      { acc with notifications := acc.notifications ++ l.filterMap (overdueEmit now s) } := by
  induction l with
  | nil =>
    intro acc
    simp
  | cons t rest ih =>
    intro acc
    rw [List.foldl_cons, ih (overdueStep now s acc t), overdueStep_eq]
    cases hg : overdueEmit now s t with
    | none => simp [List.filterMap_cons, hg]
    | some n => simp [List.filterMap_cons, hg]

theorem checkOverdueTasks_eq (now : Nat) (s : State) :
    checkOverdueTasks now s =
      { s with notifications := s.notifications ++ s.tasks.filterMap (overdueEmit now s) } := by
  unfold checkOverdueTasks
  exact overdueFold_eq now s s.tasks s

theorem overdueEmit_taskId (now : Nat) (s : State) (task : Task) (n : Notification)
    (h : overdueEmit now s task = some n) : n.taskId = some task.id := by
  unfold overdueEmit at h
  split at h
  · split at h
    · cases h
    · split at h
      · cases h
        rfl
      · cases h
  · cases h

theorem overdueEmit_fields (now : Nat) (s : State) (task : Task) (n : Notification)
    (h : overdueEmit now s task = some n) :
    n.title = "Task overdue" ∧ n.userId = task.assignedToId ∧
    n.priority = some "urgent" ∧ n.type = "task" := by
  unfold overdueEmit at h
  split at h
  · split at h
    · cases h
    · split at h
      · cases h
        exact ⟨rfl, rfl, rfl, rfl⟩
      · cases h
  · cases h

theorem map_id_nodup_inj (l : List Task) (hnd : (l.map Task.id).Nodup) :
    ∀ a ∈ l, ∀ b ∈ l, a.id = b.id → a = b := by
  induction l with
  | nil => intro a ha; cases ha
  | cons t rest ih =>
    rw [List.map_cons, List.nodup_cons] at hnd
    intro a ha b hb heq
    rcases List.mem_cons.mp ha with rfl | ha' <;>
      rcases List.mem_cons.mp hb with rfl | hb'
    · rfl
    · exact absurd (heq ▸ List.mem_map_of_mem Task.id hb') hnd.1
    · exact absurd (heq ▸ List.mem_map_of_mem Task.id ha') hnd.1
    · exact ih hnd.2 a ha' b hb' heq

theorem countP_filterMap_overdue (now : Nat) (s : State) (task : Task)
    (n0 : Notification) (hg : overdueEmit now s task = some n0)
    (hod : overdueNotifFor task n0 = true) :
    ∀ l : List Task, task ∈ l → (l.map Task.id).Nodup →
      (l.filterMap (overdueEmit now s)).countP (overdueNotifFor task) = 1 := by
  intro l
  induction l with
  | nil => intro h; cases h
  | cons t rest ih =>
    intro hmem hnd
    rw [List.map_cons, List.nodup_cons] at hnd
    rw [List.filterMap_cons]
    rcases List.mem_cons.mp hmem with rfl | hmem'
    · simp only [hg]
      rw [List.countP_cons_of_pos _ _ hod]
      have h0 : (rest.filterMap (overdueEmit now s)).countP (overdueNotifFor task) = 0 := by
        rw [List.countP_eq_zero]
        intro n hn
        obtain ⟨u, hu, hgu⟩ := List.mem_filterMap.mp hn
        have htid := overdueEmit_taskId now s u n hgu
        have hune : u.id ≠ task.id := by
          intro he
          exact hnd.1 (he ▸ List.mem_map_of_mem Task.id hu)
        simp [overdueNotifFor, htid, hune]
      rw [h0]
    · have hne : t.id ≠ task.id := by
        intro he
        exact hnd.1 (by rw [he]; exact List.mem_map_of_mem Task.id hmem')
      cases hgt : overdueEmit now s t with
      | none =>
        simp only [hgt]
        exact ih hmem' hnd.2
      | some nt =>
        simp only [hgt]
        have hnot : overdueNotifFor task nt = false := by
          have htid := overdueEmit_taskId now s t nt hgt
          simp [overdueNotifFor, htid, hne]
        rw [List.countP_cons_of_neg]
        · exact ih hmem' hnd.2
        · simp [hnot]

/-- Claim C2: for every task overdue at `now` (due date past, status
neither completed nor approved) with a nonempty assignee and no
pre-existing overdue-style notification for it, one scan emits exactly
one `Task overdue` notification for the (task, assignee) pair,
addressed to `assignedToId` with priority forced to `urgent`, and
re-running the scan on the resulting state (at any clock) emits no
duplicate for that task. -/
theorem overdue_scan_exactly_once (now now2 : Nat) (s : State) (task : Task)
    (hmem : task ∈ s.tasks)
    (hdue : task.dueDate < now)
    (hst1 : task.status ≠ "completed")
    (hst2 : task.status ≠ "approved")
    (hassigned : task.assignedToId ≠ "")
    (hfresh : ∀ n ∈ s.notifications,
      ¬(n.taskId = some task.id ∧ containsSubstr "overdue" n.title = true))
    (hids : (s.tasks.map Task.id).Nodup) :
    ((checkOverdueTasks now s).notifications.countP (overdueNotifFor task) = 1 ∧
     (∀ n ∈ (checkOverdueTasks now s).notifications, overdueNotifFor task n = true →
       n.userId = task.assignedToId ∧ n.priority = some "urgent")) ∧
    (checkOverdueTasks now2 (checkOverdueTasks now s)).notifications.countP
      (overdueNotifFor task) = 1 := by
  have hover : isOverdue now task = true := by
    simp [isOverdue, hdue, hst1, hst2]
  have hded : hasOverdueNotification s.notifications task = false := by
    unfold hasOverdueNotification
    rw [List.any_eq_false]
    intro n hn hcon
    simp only [Bool.and_eq_true, beq_iff_eq] at hcon
    exact hfresh n hn ⟨hcon.1.1, hcon.2⟩
  have hg : overdueEmit now s task =
      some (mkNotification now (taskNotificationData s task .overdue).1) := by
    unfold overdueEmit
    rw [if_pos hover, if_neg (by simp [hded])]
    exact if_pos hassigned
  have hod : overdueNotifFor task
      (mkNotification now (taskNotificationData s task .overdue).1) = true := by
    simp [overdueNotifFor, mkNotification, taskNotificationData]
  have hcnt1 := countP_filterMap_overdue now s task _ hg hod s.tasks hmem hids
  have hzero : s.notifications.countP (overdueNotifFor task) = 0 := by
    rw [List.countP_eq_zero]
    intro n hn hcon
    simp only [overdueNotifFor, Bool.and_eq_true, beq_iff_eq] at hcon
    exact hfresh n hn ⟨hcon.1, by rw [hcon.2]; decide⟩
  have hns1 : (checkOverdueTasks now s).notifications =
      s.notifications ++ s.tasks.filterMap (overdueEmit now s) := by
    rw [checkOverdueTasks_eq]
  have htasks1 : (checkOverdueTasks now s).tasks = s.tasks := by
    rw [checkOverdueTasks_eq]
  have hfirst : (checkOverdueTasks now s).notifications.countP (overdueNotifFor task) = 1 := by
    rw [hns1, List.countP_append, hzero, hcnt1]
  have hmem2 : mkNotification now (taskNotificationData s task .overdue).1 ∈
      (checkOverdueTasks now s).notifications := by
    rw [hns1]
    exact List.mem_append_right _ (List.mem_filterMap.mpr ⟨task, hmem, hg⟩)
  refine ⟨⟨hfirst, ?_⟩, ?_⟩
  · intro n hn hcon
    rw [hns1] at hn
    rcases List.mem_append.mp hn with h | h
    · exfalso
      simp only [overdueNotifFor, Bool.and_eq_true, beq_iff_eq] at hcon
      exact hfresh n h ⟨hcon.1, by rw [hcon.2]; decide⟩
    · obtain ⟨u, hu, hgu⟩ := List.mem_filterMap.mp h
      have htid := overdueEmit_taskId now s u n hgu
      have hueq : u = task := by
        apply map_id_nodup_inj s.tasks hids u hu task hmem
        simp only [overdueNotifFor, Bool.and_eq_true, beq_iff_eq] at hcon
        rw [htid] at hcon
        exact Option.some.inj hcon.1
      subst hueq
      have hfields := overdueEmit_fields now s u n hgu
      exact ⟨hfields.2.1, hfields.2.2.1⟩
  · have hded2 : hasOverdueNotification
        (checkOverdueTasks now s).notifications task = true := by
      unfold hasOverdueNotification
      rw [List.any_eq_true]
      refine ⟨_, hmem2, ?_⟩
      simp only [mkNotification, taskNotificationData, beq_self_eq_true,
        Bool.true_and, Bool.and_eq_true]
      decide
    have hnone2 : overdueEmit now2 (checkOverdueTasks now s) task = none := by
      simp [overdueEmit, hded2]
    have hzero2 : ((checkOverdueTasks now s).tasks.filterMap
        (overdueEmit now2 (checkOverdueTasks now s))).countP (overdueNotifFor task) = 0 := by
      rw [List.countP_eq_zero]
      intro n hn hcon
      obtain ⟨u, hu, hgu⟩ := List.mem_filterMap.mp hn
      rw [htasks1] at hu
      have htid := overdueEmit_taskId now2 (checkOverdueTasks now s) u n hgu
      simp only [overdueNotifFor, Bool.and_eq_true, beq_iff_eq] at hcon
      have hui : u.id = task.id := by
        rw [htid] at hcon
        exact Option.some.inj hcon.1
      have hueq : u = task := map_id_nodup_inj s.tasks hids u hu task hmem hui
      rw [hueq, hnone2] at hgu
      cases hgu
    have hrun2 : (checkOverdueTasks now2 (checkOverdueTasks now s)).notifications =
        (checkOverdueTasks now s).notifications ++
          ((checkOverdueTasks now s).tasks.filterMap
            (overdueEmit now2 (checkOverdueTasks now s))) := by
      rw [checkOverdueTasks_eq now2]
    rw [hrun2, List.countP_append, hfirst, hzero2]

/-- Claim C2 witness: the sample task (due at 100, pending, assigned
to user 2) on the fresh sample state, scanned at clock 200 and
re-scanned at clock 300. -/
theorem overdue_scan_exactly_once_witness :
    (baseTask ∈ baseState.tasks ∧ baseTask.dueDate < 200 ∧
     baseTask.status ≠ "completed" ∧ baseTask.status ≠ "approved" ∧
     baseTask.assignedToId ≠ "" ∧
     (∀ n ∈ baseState.notifications,
       ¬(n.taskId = some baseTask.id ∧ containsSubstr "overdue" n.title = true)) ∧
     (baseState.tasks.map Task.id).Nodup) ∧
    (((checkOverdueTasks 200 baseState).notifications.countP
        (overdueNotifFor baseTask) = 1 ∧
      (∀ n ∈ (checkOverdueTasks 200 baseState).notifications,
        overdueNotifFor baseTask n = true →
        n.userId = baseTask.assignedToId ∧ n.priority = some "urgent")) ∧
    (checkOverdueTasks 300 (checkOverdueTasks 200 baseState)).notifications.countP
      (overdueNotifFor baseTask) = 1) :=
  ⟨⟨by decide, by decide, by decide, by decide, by decide, by decide, by decide⟩,
    overdue_scan_exactly_once 200 300 baseState baseTask (by decide) (by decide)
      (by decide) (by decide) (by decide) (by decide) (by decide)⟩

theorem updatedTaskOf_assignedToId (now : Nat) (s : State) (orig : Task)
    (p : PartialTask) :
    (updatedTaskOf now s orig p).assignedToId = (mergeTask orig p).assignedToId := by
  unfold updatedTaskOf
  cases hst : p.status with
  | none => rfl
  | some st =>
    simp only [updatedTaskOfStatus]
    split <;> rfl

theorem updatedTaskOf_assignedById (now : Nat) (s : State) (orig : Task)
    (p : PartialTask) :
    (updatedTaskOf now s orig p).assignedById = (mergeTask orig p).assignedById := by
  unfold updatedTaskOf
  cases hst : p.status with
  | none => rfl
  | some st =>
    simp only [updatedTaskOfStatus]
    split <;> rfl

theorem updatedTaskOf_priority (now : Nat) (s : State) (orig : Task)
    (p : PartialTask) :
    (updatedTaskOf now s orig p).priority = (mergeTask orig p).priority := by
  unfold updatedTaskOf
  cases hst : p.status with
  | none => rfl
  | some st =>
    simp only [updatedTaskOfStatus]
    split <;> rfl

theorem updatedTaskOf_activityLog_changed (now : Nat) (s : State) (orig : Task)
    (p : PartialTask) (st : String) (hst : p.status = some st)
    (hchg : st ≠ orig.status) :
    (updatedTaskOf now s orig p).activityLog =
      some ((orig.activityLog.getD []) ++ [statusChangeEntry now s orig p st]) := by
  unfold updatedTaskOf
  rw [hst]
  simp only [updatedTaskOfStatus]
  rw [if_pos hchg]

theorem updatedTaskOf_activityLog_same (now : Nat) (s : State) (orig : Task)
    (p : PartialTask) (h : p.status = none ∨ p.status = some orig.status) :
    (updatedTaskOf now s orig p).activityLog = (mergeTask orig p).activityLog := by
  unfold updatedTaskOf
  rcases h with h | h
  · rw [h]
    rfl
  · rw [h]
    simp only [updatedTaskOfStatus]
    rw [if_neg (by simp)]

theorem updateTask_tasks_map (now : Nat) (s : State) (id : String)
    (p : PartialTask) (orig : Task)
    (hfind : s.tasks.find? (fun t => t.id == id) = some orig) :
    (updateTask now s id p).tasks = s.tasks.map (fun t =>
      if t.id == id then updatedTaskOf now s orig p else t) := by
  cases hst : p.status with
  | none => simp only [updateTask, hfind, hst]
  | some st =>
    simp only [updateTask, hfind, hst]
    split <;> rw [generateTaskNotification_tasks]

/-- Claim C4 counterexample: patching the pending sample task with the
same `pending` status still emits a `Task updated` notification, so a
status-related notification is emitted even though the patch's status
equals the prior status. -/
theorem updateTask_sameStatus_emits :
    ((updateTask 22 baseState "10" { status := some "pending" }).notifications.map
        Notification.title) = ["Task updated"] ∧
    baseState.tasks.find? (fun t => t.id == "10") = some baseTask ∧
    baseTask.status = "pending" ∧ baseState.notifications = [] := by
  decide

/-- Claim C4 (amended): `updateTask` on an existing task emits a
`Task updated` notification to the merged task's assignee whenever the
patch carries a status other than `completed` (whether or not it
differs from the prior status), a `Task completed` notification to the
merged task's assigner whenever the patched status is `completed`
(again regardless of change), and no notification when the patch
carries no status; recipients must be nonempty ids and the
notification carries the merged task's priority. -/
theorem updateTask_notification_rule (now : Nat) (s : State) (id : String)
    (p : PartialTask) (orig : Task)
    (hfind : s.tasks.find? (fun t => t.id == id) = some orig) :
    (p.status = none → (updateTask now s id p).notifications = s.notifications) ∧
    (∀ st, p.status = some st → st ≠ "completed" →
      (mergeTask orig p).assignedToId ≠ "" →
      ∃ n, (updateTask now s id p).notifications = s.notifications ++ [n] ∧
        n.title = "Task updated" ∧ n.userId = (mergeTask orig p).assignedToId ∧
        n.priority = some (mergeTask orig p).priority) ∧
    (p.status = some "completed" → (mergeTask orig p).assignedById ≠ "" →
      ∃ n, (updateTask now s id p).notifications = s.notifications ++ [n] ∧
        n.title = "Task completed" ∧ n.userId = (mergeTask orig p).assignedById ∧
        n.priority = some (mergeTask orig p).priority) := by
  refine ⟨?_, ?_, ?_⟩
  · intro h0
    simp only [updateTask, hfind, h0]
  · intro st hst hne has
    simp only [updateTask, hfind, hst]
    rw [if_neg hne, generateTaskNotification_spec]
    split
    · refine ⟨_, rfl, rfl, ?_, ?_⟩
      · show (updatedTaskOf now s orig p).assignedToId = _
        exact updatedTaskOf_assignedToId now s orig p
      · show some (updatedTaskOf now s orig p).priority = _
        exact congrArg some (updatedTaskOf_priority now s orig p)
    · next hcond =>
      refine absurd ?_ hcond
      show (updatedTaskOf now s orig p).assignedToId ≠ ""
      rw [updatedTaskOf_assignedToId]
      exact has
  · intro hst has
    simp only [updateTask, hfind, hst, if_true]
    rw [generateTaskNotification_spec]
    split
    · refine ⟨_, rfl, rfl, ?_, ?_⟩
      · show (updatedTaskOf now s orig p).assignedById = _
        exact updatedTaskOf_assignedById now s orig p
      · show some (updatedTaskOf now s orig p).priority = _
        exact congrArg some (updatedTaskOf_priority now s orig p)
    · next hcond =>
      refine absurd ?_ hcond
      show (updatedTaskOf now s orig p).assignedById ≠ ""
      rw [updatedTaskOf_assignedById]
      exact has

/-- Claim C4 (amended) witness: patching the sample task to
`in-progress` emits one `Task updated` notification to user 2. -/
theorem updateTask_notification_rule_witness :
    (baseState.tasks.find? (fun t => t.id == "10") = some baseTask) ∧
    ((({ status := some "in-progress" } : PartialTask).status = none →
      (updateTask 23 baseState "10" { status := some "in-progress" }).notifications =
        baseState.notifications) ∧
    (∀ st, ({ status := some "in-progress" } : PartialTask).status = some st →
      st ≠ "completed" →
      (mergeTask baseTask { status := some "in-progress" }).assignedToId ≠ "" →
      ∃ n, (updateTask 23 baseState "10" { status := some "in-progress" }).notifications =
          baseState.notifications ++ [n] ∧
        n.title = "Task updated" ∧
        n.userId = (mergeTask baseTask { status := some "in-progress" }).assignedToId ∧
        n.priority = some (mergeTask baseTask { status := some "in-progress" }).priority) ∧
    (({ status := some "in-progress" } : PartialTask).status = some "completed" →
      (mergeTask baseTask { status := some "in-progress" }).assignedById ≠ "" →
      ∃ n, (updateTask 23 baseState "10" { status := some "in-progress" }).notifications =
          baseState.notifications ++ [n] ∧
        n.title = "Task completed" ∧
        n.userId = (mergeTask baseTask { status := some "in-progress" }).assignedById ∧
        n.priority = some (mergeTask baseTask { status := some "in-progress" }).priority)) :=
  ⟨by decide,
    updateTask_notification_rule 23 baseState "10" { status := some "in-progress" }
      baseTask (by decide)⟩

/-- Claim C5 counterexample: a patch that itself carries an
`activityLog` field (and no status) replaces the log via the shallow
merge, so the activity log does not stay unchanged on a status-free
patch. -/
theorem updateTask_patch_clobbers_activityLog :
    ((updateTask 21 baseState "10"
        { activityLog := some (some []) }).tasks.map Task.activityLog) = [some []] ∧
    baseTask.activityLog ≠ some [] ∧
    baseState.tasks.find? (fun t => t.id == "10") = some baseTask ∧
    ({ activityLog := some (some []) } : PartialTask).status = none := by
  decide

/-- Claim C5 (amended): on an existing task, when the patch carries a
status differing from the prior one, the stored task's activity log is
the original log plus exactly one transition entry at the end (any
`activityLog` carried by the patch is overwritten); when the patch's
status is absent or equal to the prior status, the stored log is the
shallow-merge result: the patch's `activityLog` when present,
otherwise the original log unchanged. -/
theorem updateTask_activityLog_rule (now : Nat) (s : State) (id : String)
    (p : PartialTask) (orig : Task)
    (hfind : s.tasks.find? (fun t => t.id == id) = some orig) :
    (updateTask now s id p).tasks.length = s.tasks.length ∧
    (∀ st, p.status = some st → st ≠ orig.status →
      ∀ i (h : i < s.tasks.length) (h' : i < (updateTask now s id p).tasks.length),
        (s.tasks.get ⟨i, h⟩).id = id →
        ∃ e, ((updateTask now s id p).tasks.get ⟨i, h'⟩).activityLog =
            some ((orig.activityLog.getD []) ++ [e]) ∧
          e.action = "Status changed from " ++ replaceDash orig.status ++
            " to " ++ replaceDash st) ∧
    ((p.status = none ∨ p.status = some orig.status) →
      ∀ i (h : i < s.tasks.length) (h' : i < (updateTask now s id p).tasks.length),
        (s.tasks.get ⟨i, h⟩).id = id →
        ((updateTask now s id p).tasks.get ⟨i, h'⟩).activityLog =
          (mergeTask orig p).activityLog) := by
  have hmap := updateTask_tasks_map now s id p orig hfind
  have hget : ∀ i (h : i < s.tasks.length) (h' : i < (updateTask now s id p).tasks.length),
      (s.tasks.get ⟨i, h⟩).id = id →
      (updateTask now s id p).tasks.get ⟨i, h'⟩ = updatedTaskOf now s orig p := by
    intro i h h' hid
    simp only [List.get_eq_getElem] at hid ⊢
    rw [List.getElem_of_eq hmap h']
    simp only [List.getElem_map]
    rw [if_pos (by simpa using hid)]
  refine ⟨by rw [hmap]; simp, ?_, ?_⟩
  · intro st hst hchg i h h' hid
    refine ⟨statusChangeEntry now s orig p st, ?_, rfl⟩
    rw [hget i h h' hid,
      updatedTaskOf_activityLog_changed now s orig p st hst hchg]
  · intro h0 i h h' hid
    rw [hget i h h' hid, updatedTaskOf_activityLog_same now s orig p h0]

/-- Claim C5 (amended) witness: patching the sample task's status to
`completed` appends one transition entry to its one-entry log. -/
theorem updateTask_activityLog_rule_witness :
    (baseState.tasks.find? (fun t => t.id == "10") = some baseTask) ∧
    ((updateTask 24 baseState "10" { status := some "completed" }).tasks.length =
        baseState.tasks.length ∧
    (∀ st, ({ status := some "completed" } : PartialTask).status = some st →
      st ≠ baseTask.status →
      ∀ i (h : i < baseState.tasks.length)
        (h' : i < (updateTask 24 baseState "10"
          { status := some "completed" }).tasks.length),
        (baseState.tasks.get ⟨i, h⟩).id = "10" →
        ∃ e, ((updateTask 24 baseState "10"
            { status := some "completed" }).tasks.get ⟨i, h'⟩).activityLog =
            some ((baseTask.activityLog.getD []) ++ [e]) ∧
          e.action = "Status changed from " ++ replaceDash baseTask.status ++
            " to " ++ replaceDash st) ∧
    ((({ status := some "completed" } : PartialTask).status = none ∨
        ({ status := some "completed" } : PartialTask).status = some baseTask.status) →
      ∀ i (h : i < baseState.tasks.length)
        (h' : i < (updateTask 24 baseState "10"
          { status := some "completed" }).tasks.length),
        (baseState.tasks.get ⟨i, h⟩).id = "10" →
        ((updateTask 24 baseState "10"
            { status := some "completed" }).tasks.get ⟨i, h'⟩).activityLog =
          (mergeTask baseTask { status := some "completed" }).activityLog)) :=
  ⟨by decide,
    updateTask_activityLog_rule 24 baseState "10" { status := some "completed" }
      baseTask (by decide)⟩

end ChartApp
